import Mathlib

/-!
Verification of libretromame.c (libretro front end for libmame).

This file shallowly embeds the driver-facing entry points and the
libmame callbacks of src/libretromame.c and proves the frozen claims
about them.  Machine integers are modelled as Nat/Int; the C globals
are gathered into a `GlobalState` record; the fixed 1000*1000-entry
uint16 frame buffer `videoFrameG` is modelled as a total function
`Nat → Nat` (index into the buffer → stored pixel value); pointers into
engine-owned memory (`texture.base`, the audio sample buffer) are
modelled as total functions from offsets to values; the singly linked
render-primitive list is modelled as a `List`.

The C source contains obvious spelling slips that make it ill-formed C
(`prim>texture.width` for `prim->texture.width`, `prim.flags` for
`prim->flags`, `fromRunnerThreadG` for `fromRunnerCondG`,
`samples_this_frame` for the renamed parameter `frame_count`,
`rompath` for `runGameOptionsG.rom_path`, a two-argument
`pthread_cond_signal`, and pointer-valued arguments to the
single-sample audio callback).  The embedding repairs exactly those
spellings (each noted at its definition) and otherwise follows the
source statement by statement.
-/

/- ************************************************************************ -/
/- Data model for the engine-side (libmame) render primitives               -/
/- ************************************************************************ -/

/-- Discriminant of a render primitive: libmame emits line (vector) and
quad (raster surface) primitives; `UpdateVideoCb` only accepts quads. -/
inductive RenderPrimitiveType where
  | Line
  | Quad
deriving DecidableEq

/-- Texture formats appearing in the `switch` of `UpdateVideoCb`
(`LIBMAME_RENDERFLAGS_TEXTURE_FORMAT`). -/
inductive TextureFormat where
  | Undefined
  | Palette16
  | PaletteA16
  | RGB32
  | ARGB32
  | YUY16
deriving DecidableEq

/-- The decoded `flags` word of a render primitive.  The C reads it only
through the macros `LIBMAME_RENDERFLAGS_SCREEN_TEXTURE` and
`LIBMAME_RENDERFLAGS_TEXTURE_FORMAT`, so the flags are modelled as the
pair of those two decoded fields. -/
structure RenderFlags where
  screenTexture : Bool
  textureFormat : TextureFormat

/-- The `texture` member of a render primitive.  `base` is the pixel
pointer, modelled as a total function from a (possibly negative, hence
`Int`) element offset to the packed value stored there; `palette` is the
palette table, modelled as a total function from index to entry. -/
structure RenderTexture where
  base : Int → Nat
  rowpixels : Int
  width : Nat
  height : Nat
  palette : Nat → Nat

/-- One node of the singly linked `LibMame_RenderPrimitive` list (the
`next` pointer is modelled by embedding lists of primitives). -/
structure RenderPrimitive where
  type : RenderPrimitiveType
  flags : RenderFlags
  texture : RenderTexture

/- ************************************************************************ -/
/- Global state of the core                                                 -/
/- ************************************************************************ -/

/-- The mutable globals of libretromame.c that the embedded operations
read and write.  `videoFrame` models the `uint16_t videoFrameG[1000*1000]`
buffer; `rom_path` models `runGameOptionsG.rom_path` (the one run-option
field the source writes per load); the remaining run options are set
once in `retro_init` and never touched again, so they are omitted. -/
structure GlobalState where
  runningGameNumber : Int
  runningGameStop : Bool
  resetFlag : Bool
  runningGameWidth : Nat
  runningGameHeight : Nat
  runningGameSampleRate : Int
  rom_path : List Char
  videoFrame : Nat → Nat

/- ************************************************************************ -/
/- UpdateVideoCb                                                            -/
/- ************************************************************************ -/

/-- The scan loop of `UpdateVideoCb`:
`while (prim && ((prim->type != Quad) || !SCREEN_TEXTURE(prim->flags))) prim = prim->next;`
returning the primitive the loop stops on (`none` models the NULL end of
the list). -/
def findScreenQuad : List RenderPrimitive → Option RenderPrimitive
  | [] => none
  | p :: rest =>
    if p.type ≠ RenderPrimitiveType.Quad ∨ p.flags.screenTexture = false then
      findScreenQuad rest
    else
      some p

/-- The per-pixel repack of the RGB32/ARGB32 branch of `UpdateVideoCb`:
`(((xrgb >> 16) & 0x3f) << 10) | (((xrgb >> 8) & 0x3f) << 5) | ((xrgb >> 0) & 0x3f)`. -/
def rgb32Pack (xrgb : Nat) : Nat :=
  (((xrgb >>> 16) &&& 63) <<< 10) ||| (((xrgb >>> 8) &&& 63) <<< 5) |||
    ((xrgb >>> 0) &&& 63)

/-- One iteration of the inner `for (x = 0; x < width; x++)` loop family
of `UpdateVideoCb`: reads `width` consecutive source elements starting
at element offset `ptr` and maps each through the per-pixel conversion
`f`. -/
def convertRow (src : Int → Nat) (f : Nat → Nat) (ptr : Int) (w : Nat) : List Nat :=
  (List.range w).map (fun x : Nat => f (src (ptr + (x : Int))))

/-- The outer `for (y = 0; y < height; y++)` loop of `UpdateVideoCb`'s
conversion: after each row the source pointer has advanced by
`width + (rowpixels - width) = rowpixels` elements (`src += rowdiff`),
while the destination pointer advances contiguously — the result list is
the sequence of values written to `videoFrameG[0], videoFrameG[1], …`. -/
def convertRows (src : Int → Nat) (f : Nat → Nat) (w : Nat) (rowpixels : Int) :
    Nat → Int → List Nat
  | 0, _ => []
  | h + 1, ptr => convertRow src f ptr w ++ convertRows src f w rowpixels h (ptr + rowpixels)

/-- Overwriting the leading `l.length` entries of the frame buffer with
`l` (the C writes `*dest++ = …` starting at `videoFrameG[0]`); all other
entries keep their prior contents. -/
def writeListToFrame (l : List Nat) (old : Nat → Nat) : Nat → Nat :=
  fun i => (l.get? i).getD (old i)

/-- The arguments of the one `retroVideoRefreshG` invocation at the end
of `UpdateVideoCb` (the data pointer is `videoFrameG`, which lives in the
returned state). -/
structure VideoDelivery where
  width : Nat
  height : Nat
  pitch : Nat
deriving DecidableEq

/-- Embedding of `UpdateVideoCb`.  `videoRefreshRegistered` models
whether `retroVideoRefreshG` is non-NULL.  Returns the updated globals
and the callback invocation, if any.  The size guard multiplies the two
`uint32_t` texture fields in their own type, so the product wraps
modulo 2^32 before the comparison (e.g. 65536 * 65536 wraps to 0 and
passes the guard even though the surface is oversized).  Repaired
spellings: `prim>texture.width` → `prim->texture.width`, `prim.flags` →
`prim->flags`, `prim.texture.palette` → `prim->texture.palette` (the
RGB32/ARGB32 branch therefore reads `prim->texture.palette[*src++]`,
looking the packed source value up in the palette table, exactly as the
repaired source does). -/
def UpdateVideoCb (videoRefreshRegistered : Bool)
    (render_primitive_list : List RenderPrimitive) (s : GlobalState) :
    GlobalState × Option VideoDelivery :=
  if videoRefreshRegistered = false then (s, none)
  else
    match findScreenQuad render_primitive_list with
    | none => (s, none)
    | some prim =>
      if prim.texture.width * prim.texture.height % 4294967296 > 1000 * 1000 then
        (s, none)
      else
        let s1 := { s with runningGameWidth := prim.texture.width,
                           runningGameHeight := prim.texture.height }
        match prim.flags.textureFormat with
        | TextureFormat.Palette16 | TextureFormat.PaletteA16 =>
          let l := convertRows prim.texture.base
            (fun v => prim.texture.palette v)
            prim.texture.width prim.texture.rowpixels prim.texture.height 0
          ({ s1 with videoFrame := writeListToFrame l s1.videoFrame },
           some { width := prim.texture.width, height := prim.texture.height,
                  pitch := 2 * prim.texture.width })
        | TextureFormat.RGB32 | TextureFormat.ARGB32 =>
          let l := convertRows prim.texture.base
            (fun v => rgb32Pack (prim.texture.palette v))
            prim.texture.width prim.texture.rowpixels prim.texture.height 0
          ({ s1 with videoFrame := writeListToFrame l s1.videoFrame },
           some { width := prim.texture.width, height := prim.texture.height,
                  pitch := 2 * prim.texture.width })
        | TextureFormat.YUY16 => (s1, none)
        | TextureFormat.Undefined => (s1, none)

/- ************************************************************************ -/
/- UpdateAudioCb                                                            -/
/- ************************************************************************ -/

/-- One forwarded audio delivery: either the single batch call
`retroAudioSampleBatchG(buffer, frame_count)` (the pointer argument is
the ambient buffer, so only the count is recorded) or one
`retroAudioSampleG(left, right)` call. -/
inductive AudioCall where
  | batch (frame_count : Nat)
  | sample (left right : Int)
deriving DecidableEq

/-- The `for (i = 0; i < frame_count; i++)` loop of `UpdateAudioCb`:
each iteration forwards the two samples at the current buffer position
and advances the position by 2 (`buffer = &(buffer[2])`).  Repaired
spelling: the source passes `buffer` and `&(buffer[1])` where the
libretro callback takes the two sample values, i.e. `buffer[0]` and
`buffer[1]`. -/
def audioSampleLoop (buffer : Nat → Int) (ptr : Nat) : Nat → List AudioCall
  | 0 => []
  | n + 1 =>
    AudioCall.sample (buffer ptr) (buffer (ptr + 1)) ::
      audioSampleLoop buffer (ptr + 2) n

/-- Embedding of `UpdateAudioCb`.  `batchRegistered` / `sampleRegistered`
model whether `retroAudioSampleBatchG` / `retroAudioSampleG` are
non-NULL.  Repaired spelling: `samples_this_frame` → `frame_count` (the
parameter was renamed in the definition but not in the body). -/
def UpdateAudioCb (batchRegistered sampleRegistered : Bool) (sample_rate : Int)
    (frame_count : Nat) (buffer : Nat → Int) (s : GlobalState) :
    GlobalState × List AudioCall :=
  let s1 := { s with runningGameSampleRate := sample_rate }
  if batchRegistered then (s1, [AudioCall.batch frame_count])
  else if sampleRegistered then (s1, audioSampleLoop buffer 0 frame_count)
  else (s1, [])

/- ************************************************************************ -/
/- MakeRunningGameCallsCb (command check after the wait)                    -/
/- ************************************************************************ -/

/-- The engine calls `MakeRunningGameCallsCb` can schedule on the
running game. -/
inductive EngineCall where
  | scheduleExit
  | scheduleSoftReset
deriving DecidableEq

/-- The command-processing tail of `MakeRunningGameCallsCb`, executed
after `pthread_cond_wait(toRunnerCondG)` returns: checks
`runningGameStopG` first and `resetG` (spelled `resetFlag` here) only
otherwise, clearing `resetG` only when a soft reset is scheduled.
Input and output are the `(runningGameStopG, resetG)` flag pair, plus
the engine call scheduled, if any.  (The signal/wait handshake around
this check is modelled separately by the `Conf` transition system.) -/
def makeRunningGameCallsCheck (stop reset : Bool) : (Bool × Bool) × Option EngineCall :=
  if stop then ((stop, reset), some EngineCall.scheduleExit)
  else if reset then ((stop, false), some EngineCall.scheduleSoftReset)
  else ((stop, reset), none)

/- ************************************************************************ -/
/- Session controller: load / unload / av info                              -/
/- ************************************************************************ -/

/-- `tolower` restricted to ASCII as applied by `retro_load_game`. -/
def tolowerChar (c : Char) : Char :=
  if 65 ≤ c.toNat ∧ c.toNat ≤ 90 then Char.ofNat (c.toNat + 32) else c

/-- The first scan loop of `retro_load_game`:
`while (*c && (*c != '/') && (*c != '\\')) c += 1;` — splits the path at
the first slash or backslash (second component starts with that
character; empty second component models the loop reaching NUL). -/
def spanToSlash : List Char → List Char × List Char
  | [] => ([], [])
  | ch :: rest =>
    if ch = '/' ∨ ch = '\\' then ([], ch :: rest)
    else
      let p := spanToSlash rest
      (ch :: p.1, p.2)

/-- The second scan loop of `retro_load_game`:
`while (*c && (*c != '.')) c += 1;` — the characters before the first
dot. -/
def spanToDot : List Char → List Char
  | [] => []
  | ch :: rest => if ch = '.' then [] else ch :: spanToDot rest

/-- The final loop of `retro_load_game` over `gamename`: cut at the
first `'.'` (writing NUL) and `tolower` every character before it. -/
def cutExtLower : List Char → List Char
  | [] => []
  | ch :: rest => if ch = '.' then [] else tolowerChar ch :: cutExtLower rest

/-- The value `retro_load_game` stores into `runGameOptionsG.rom_path`:
with a slash present, the path prefix up to and including the first
slash (`snprintf("%.*s", c - game->path, game->path)` with `c` one past
the slash); otherwise `"."` (repaired spelling: the source writes the
local-file case into an undeclared `rompath`, meaning
`runGameOptionsG.rom_path`). -/
def parseRomPath (path : List Char) : List Char :=
  match spanToSlash path with
  | (_, []) => ['.']
  | (before, slash :: _) => before ++ [slash]

/-- The `gamename` string `retro_load_game` passes to
`LibMame_Get_Game_Number`: the segment after the first slash (or the
whole path if none), cut at the first dot and lowercased. -/
def parseGameName (path : List Char) : List Char :=
  match spanToSlash path with
  | (_, []) => cutExtLower path
  | (_, _ :: rest) => cutExtLower (spanToDot rest)

/-- Embedding of `retro_load_game`.  `lookup` models
`LibMame_Get_Game_Number`; `createOk` models whether `pthread_create`
succeeds.  Returns (new globals, return value, whether a runner thread
was created).  The source writes `runGameOptionsG.rom_path` during path
parsing, then sets `runningGameNumberG` from the lookup, and only then
tests it against -1; on failure it returns false without clearing
`runningGameStopG` and without creating the thread. -/
def retro_load_game (lookup : List Char → Int) (createOk : Bool)
    (path : List Char) (s : GlobalState) : GlobalState × Bool × Bool :=
  let s1 := { s with rom_path := parseRomPath path }
  let num := lookup (parseGameName path)
  let s2 := { s1 with runningGameNumber := num }
  if num = -1 then (s2, false, false)
  else ({ s2 with runningGameStop := false }, createOk, createOk)

/-- The `retro_system_av_info` record as filled by
`retro_get_system_av_info` (the two float fields are modelled as
rationals; the source stores the literal `0.0` into `aspect_ratio`). -/
structure AvInfo where
  base_width : Nat
  base_height : Nat
  max_width : Nat
  max_height : Nat
  aspect_ratio : ℚ
  fps : ℚ
  sample_rate : Int

/-- Embedding of `retro_get_system_av_info`.  `refreshRate` models
`LibMame_GetGame_ScreenRefreshRateHz`. -/
def retro_get_system_av_info (refreshRate : Int → ℚ) (s : GlobalState) : AvInfo :=
  { base_width := s.runningGameWidth
    base_height := s.runningGameHeight
    max_width := s.runningGameWidth
    max_height := s.runningGameHeight
    aspect_ratio := 0
    fps := if s.runningGameNumber ≥ 0 then refreshRate s.runningGameNumber else 0
    sample_rate := s.runningGameSampleRate }

/- ************************************************************************ -/
/- Unsupported entry points                                                 -/
/- ************************************************************************ -/

/-- `retro_serialize_size`: returns 0. -/
def retro_serialize_size : Nat := 0

/-- `retro_serialize`: returns false, touches nothing. -/
def retro_serialize (_data : List Nat) (_size : Nat) (s : GlobalState) :
    GlobalState × Bool := (s, false)

/-- `retro_unserialize`: returns false, touches nothing. -/
def retro_unserialize (_data : List Nat) (_size : Nat) (s : GlobalState) :
    GlobalState × Bool := (s, false)

/-- `retro_cheat_reset`: no effect. -/
def retro_cheat_reset (s : GlobalState) : GlobalState := s

/-- `retro_cheat_set`: no effect. -/
def retro_cheat_set (_index : Nat) (_enabled : Bool) (_code : List Char)
    (s : GlobalState) : GlobalState := s

/-- `retro_load_game_special`: returns false, touches nothing. -/
def retro_load_game_special (_game_type : Nat) (_num_info : Nat)
    (s : GlobalState) : GlobalState × Bool := (s, false)

/-- `retro_get_region`: returns 0. -/
def retro_get_region : Nat := 0

/-- `retro_get_memory_data`: returns NULL. -/
def retro_get_memory_data (_id : Nat) : Option Nat := none

/-- `retro_get_memory_size`: returns 0. -/
def retro_get_memory_size (_id : Nat) : Nat := 0

/- ************************************************************************ -/
/- The rendezvous handshake as a transition system                          -/
/- ************************************************************************ -/

/-- The two execution contexts of the handshake. -/
inductive Tid where
  | driver
  | worker
deriving DecidableEq, Fintype

/-- Driver control points inside its `retro_run` loop:
`dCall` — about to execute `pthread_mutex_lock(&mutexG)`;
`dSignal` — about to execute `pthread_cond_signal(&toRunnerCondG)`;
`dWait0` — about to enter `pthread_cond_wait(&fromRunnerCondG, &mutexG)`
(atomically releasing the mutex and sleeping);
`dWaitSleep` — asleep on `fromRunnerCondG`;
`dWaitWake` — signalled, reacquiring the mutex to return from the wait;
`dDone` — `retro_run` has returned (note the source never executes
`pthread_mutex_unlock`, so the driver still holds `mutexG` here). -/
inductive DPc where
  | dCall
  | dSignal
  | dWait0
  | dWaitSleep
  | dWaitWake
  | dDone
deriving DecidableEq, Fintype

/-- Worker control points inside the engine loop around
`MakeRunningGameCallsCb`:
`wEmulate` — executing engine work for one frame (video/audio callbacks),
about to call `MakeRunningGameCallsCb`;
`wLock` — about to execute `pthread_mutex_lock(&mutexG)`;
`wSignal` — about to execute `pthread_cond_signal(&fromRunnerCondG)`;
`wWait0` — about to enter `pthread_cond_wait(&toRunnerCondG, &mutexG)`;
`wWaitSleep` — asleep on `toRunnerCondG`;
`wWaitWake` — signalled, reacquiring the mutex;
`wCheck` — running the stop/reset command check;
`wRet` — returning from `MakeRunningGameCallsCb` (again, no
`pthread_mutex_unlock` in the source, so the worker keeps `mutexG`);
`wStopped` — the engine run loop has exited. -/
inductive WPc where
  | wEmulate
  | wLock
  | wSignal
  | wWait0
  | wWaitSleep
  | wWaitWake
  | wCheck
  | wRet
  | wStopped
deriving DecidableEq, Fintype

/-- A configuration of the two-thread system: who holds `mutexG` (a
default, non-recursive pthread mutex: relocking by the holder blocks),
the two program counters, whether a runner thread exists at all
(`workerPresent = false` models `runningGameNumberG == -1`: no thread
was created or it has exited), and the two command flags. -/
structure Conf where
  mutex : Option Tid
  dpc : DPc
  wpc : WPc
  workerPresent : Bool
  stop : Bool
  reset : Bool
deriving DecidableEq, Fintype

/-- One step of the driver, if it can move.  `pthread_cond_signal` wakes
the peer only if it is currently sleeping on that condition (otherwise
the signal is lost — no wakeup is buffered); `pthread_cond_wait` is
modelled without spurious wakeups.  Sleeping, or locking a mutex that is
held (by anyone, the caller included), yields no step. -/
def dstep (c : Conf) : Option Conf :=
  match c.dpc with
  | DPc.dCall =>
    if c.mutex = none then some { c with mutex := some Tid.driver, dpc := DPc.dSignal }
    else none
  | DPc.dSignal =>
    if c.workerPresent = true ∧ c.wpc = WPc.wWaitSleep then
      some { c with wpc := WPc.wWaitWake, dpc := DPc.dWait0 }
    else some { c with dpc := DPc.dWait0 }
  | DPc.dWait0 => some { c with mutex := none, dpc := DPc.dWaitSleep }
  | DPc.dWaitSleep => none
  | DPc.dWaitWake =>
    if c.mutex = none then some { c with mutex := some Tid.driver, dpc := DPc.dDone }
    else none
  | DPc.dDone => some { c with dpc := DPc.dCall }

/-- One step of the worker, if it can move (same conventions as
`dstep`).  The `wCheck` step is `makeRunningGameCallsCheck`: on stop the
engine exit is scheduled and the run loop exits at its next iteration
(`wStopped`); on reset the flag is cleared and the callback returns. -/
def wstep (c : Conf) : Option Conf :=
  if c.workerPresent = false then none
  else
    match c.wpc with
    | WPc.wEmulate => some { c with wpc := WPc.wLock }
    | WPc.wLock =>
      if c.mutex = none then some { c with mutex := some Tid.worker, wpc := WPc.wSignal }
      else none
    | WPc.wSignal =>
      if c.dpc = DPc.dWaitSleep then
        some { c with dpc := DPc.dWaitWake, wpc := WPc.wWait0 }
      else some { c with wpc := WPc.wWait0 }
    | WPc.wWait0 => some { c with mutex := none, wpc := WPc.wWaitSleep }
    | WPc.wWaitSleep => none
    | WPc.wWaitWake =>
      if c.mutex = none then some { c with mutex := some Tid.worker, wpc := WPc.wCheck }
      else none
    | WPc.wCheck =>
      if c.stop then some { c with wpc := WPc.wStopped }
      else if c.reset then some { c with reset := false, wpc := WPc.wRet }
      else some { c with wpc := WPc.wRet }
    | WPc.wRet => some { c with wpc := WPc.wEmulate }
    | WPc.wStopped => none

/-- Scheduler step: run the chosen thread if it can move, otherwise the
configuration is unchanged. -/
def stepOr (c : Conf) (t : Tid) : Conf :=
  match t with
  | Tid.driver => (dstep c).getD c
  | Tid.worker => (wstep c).getD c

/-- Run a schedule (list of thread choices) from a configuration. -/
def run : Conf → List Tid → Conf
  | c, [] => c
  | c, t :: ts => run (stepOr c t) ts

/-- Initial configuration: mutex free, driver about to make its first
`retro_run` call, and — when a runner thread exists — the worker
emulating its first frame with both command flags clear. -/
def initConf (workerPresent : Bool) : Conf :=
  { mutex := none, dpc := DPc.dCall, wpc := WPc.wEmulate,
    workerPresent := workerPresent, stop := false, reset := false }

/- ************************************************************************ -/
/- The retro_unload_game / runner-exit interaction as a transition system   -/
/- ************************************************************************ -/

/-- Driver control points inside `retro_unload_game`:
`uLock` — about to execute `pthread_mutex_lock(&mutexG)`;
`uIf` — evaluating `if (runningGameNumberG != -1)`;
`uSetStop` — about to execute `runningGameStopG = true`;
`uSignal` — about to execute `pthread_cond_signal(&toRunnerCondG)`
(repaired spelling: the source passes a stray second argument);
`uTest` — evaluating the `while (runningGameNumberG != -1)` guard;
`uWait0` — about to enter `pthread_cond_wait(&fromRunnerCondG, &mutexG)`;
`uWaitSleep` — asleep on `fromRunnerCondG`;
`uWaitWake` — signalled, reacquiring `mutexG` to return from the wait
and re-test the guard;
`uZero` — the metadata zeroing (`runningGameWidthG = runningGameHeightG
= 0; runningGameSampleRateG = 0`);
`uDone` — `retro_unload_game` has returned. -/
inductive UPc where
  | uLock
  | uIf
  | uSetStop
  | uSignal
  | uTest
  | uWait0
  | uWaitSleep
  | uWaitWake
  | uZero
  | uDone
deriving DecidableEq, Fintype

/-- Worker control points for the unload scenario: the yield-point loop
as in `WPc`, extended with the exit path the stop intent triggers:
`xExitRet` — `MakeRunningGameCallsCb` has called
`LibMame_RunningGame_Schedule_Exit` and returns (without unlocking
`mutexG`); the engine run loop then exits and `LibMame_RunGame` returns
into `runner_main`;
`xExitNum` — `runner_main` executes `runningGameNumberG = -1`;
`xExitSignal` — `runner_main` signals `fromRunnerCondG` (repaired
spelling: `fromRunnerThreadG`);
`xDead` — the worker thread terminates, still owning `mutexG`, which is
therefore never released again. -/
inductive WXPc where
  | xEmulate
  | xLock
  | xSignal
  | xWait0
  | xWaitSleep
  | xWaitWake
  | xCheck
  | xRet
  | xExitRet
  | xExitNum
  | xExitSignal
  | xDead
deriving DecidableEq, Fintype

/-- A configuration of the unload scenario: mutex owner, the two program
counters, the command flags and whether `runningGameNumberG` is -1. -/
structure UConf where
  mutex : Option Tid
  upc : UPc
  xpc : WXPc
  stop : Bool
  reset : Bool
  numMinus1 : Bool
deriving DecidableEq, Fintype

/-- One step of the driver executing `retro_unload_game` (same
mutex/condition conventions as `dstep`). -/
def ustep (c : UConf) : Option UConf :=
  match c.upc with
  | UPc.uLock =>
    if c.mutex = none then some { c with mutex := some Tid.driver, upc := UPc.uIf }
    else none
  | UPc.uIf =>
    if c.numMinus1 then some { c with upc := UPc.uDone }
    else some { c with upc := UPc.uSetStop }
  | UPc.uSetStop => some { c with stop := true, upc := UPc.uSignal }
  | UPc.uSignal =>
    if c.xpc = WXPc.xWaitSleep then
      some { c with xpc := WXPc.xWaitWake, upc := UPc.uTest }
    else some { c with upc := UPc.uTest }
  | UPc.uTest =>
    if c.numMinus1 then some { c with upc := UPc.uZero }
    else some { c with upc := UPc.uWait0 }
  | UPc.uWait0 => some { c with mutex := none, upc := UPc.uWaitSleep }
  | UPc.uWaitSleep => none
  | UPc.uWaitWake =>
    if c.mutex = none then some { c with mutex := some Tid.driver, upc := UPc.uTest }
    else none
  | UPc.uZero => some { c with upc := UPc.uDone }
  | UPc.uDone => none

/-- One step of the worker in the unload scenario: the yield-point loop
of `MakeRunningGameCallsCb` (no unlock on return, as in the source),
plus the exit path through `runner_main` once the stop intent is
observed.  The worker dies owning `mutexG`. -/
def uwstep (c : UConf) : Option UConf :=
  match c.xpc with
  | WXPc.xEmulate => some { c with xpc := WXPc.xLock }
  | WXPc.xLock =>
    if c.mutex = none then some { c with mutex := some Tid.worker, xpc := WXPc.xSignal }
    else none
  | WXPc.xSignal =>
    if c.upc = UPc.uWaitSleep then
      some { c with upc := UPc.uWaitWake, xpc := WXPc.xWait0 }
    else some { c with xpc := WXPc.xWait0 }
  | WXPc.xWait0 => some { c with mutex := none, xpc := WXPc.xWaitSleep }
  | WXPc.xWaitSleep => none
  | WXPc.xWaitWake =>
    if c.mutex = none then some { c with mutex := some Tid.worker, xpc := WXPc.xCheck }
    else none
  | WXPc.xCheck =>
    if c.stop then some { c with xpc := WXPc.xExitRet }
    else if c.reset then some { c with reset := false, xpc := WXPc.xRet }
    else some { c with xpc := WXPc.xRet }
  | WXPc.xRet => some { c with xpc := WXPc.xEmulate }
  | WXPc.xExitRet => some { c with xpc := WXPc.xExitNum }
  | WXPc.xExitNum => some { c with numMinus1 := true, xpc := WXPc.xExitSignal }
  | WXPc.xExitSignal =>
    if c.upc = UPc.uWaitSleep then
      some { c with upc := UPc.uWaitWake, xpc := WXPc.xDead }
    else some { c with xpc := WXPc.xDead }
  | WXPc.xDead => none

/-- Scheduler step for the unload scenario. -/
def ustepOr (c : UConf) (t : Tid) : UConf :=
  match t with
  | Tid.driver => (ustep c).getD c
  | Tid.worker => (uwstep c).getD c

/-- Run a schedule in the unload scenario. -/
def urun : UConf → List Tid → UConf
  | c, [] => c
  | c, t :: ts => urun (ustepOr c t) ts

/-- Initial unload configuration: a game is loaded
(`runningGameNumberG != -1`), the worker is emulating a frame, the mutex
is free, and the driver enters `retro_unload_game`. -/
def uInitConf : UConf :=
  { mutex := none, upc := UPc.uLock, xpc := WXPc.xEmulate,
    stop := false, reset := false, numMinus1 := false }

/-- A schedule on which `retro_unload_game` performs every step the
claim describes — sets the stop intent, wakes the worker, and waits —
and the worker duly observes the stop, exits with
`runningGameNumberG = -1` and signals `fromRunnerCondG`, yet the driver
can never return from its `pthread_cond_wait`: the worker died owning
`mutexG` (never unlocked), so the wait's mutex reacquisition blocks
forever, one step short of the metadata zeroing. -/
def unloadDeadTrace : List Tid :=
  [Tid.worker, Tid.worker, Tid.worker, Tid.worker,
   Tid.driver, Tid.driver, Tid.driver, Tid.driver, Tid.driver, Tid.driver,
   Tid.worker, Tid.worker, Tid.worker, Tid.worker, Tid.worker]

/- ************************************************************************ -/
/- Spec-side characterizations and concrete inputs                          -/
/- ************************************************************************ -/

/-- Eligibility of a render primitive as the spec words it: a quad
primitive bearing the screen-texture flag. -/
def isEligiblePrim (p : RenderPrimitive) : Bool :=
  decide (p.type = RenderPrimitiveType.Quad ∧ p.flags.screenTexture = true)

/-- The RGB32 per-pixel conversion as the claim words it: the top 6 bits
of each 8-bit channel of the source packed value, repacked at the
destination bit offsets 10, 5, 0.  Declared for comparison against
`rgb32Pack`, which is the conversion the source performs. -/
def rgb32PackSpecTop6 (xrgb : Nat) : Nat :=
  (((xrgb >>> 18) &&& 63) <<< 10) ||| (((xrgb >>> 10) &&& 63) <<< 5) |||
    ((xrgb >>> 2) &&& 63)

/-- A schedule on which the loaded-game handshake deadlocks: the worker
reaches its first yield point and sleeps; the driver completes one
`retro_run` (waking the worker, then sleeping on `fromRunnerCondG`); the
worker reacquires the mutex, finishes the callback without unlocking,
emulates the next frame, and attempts to relock the mutex it still
holds. -/
def deadlockTrace : List Tid :=
  [Tid.worker, Tid.worker, Tid.worker, Tid.worker,
   Tid.driver, Tid.driver, Tid.driver,
   Tid.worker, Tid.worker, Tid.worker, Tid.worker]

/-- A screen quad whose texture is one row beyond the frame-buffer
capacity (1001 * 1000 pixels). -/
def c3PrimBig : RenderPrimitive :=
  { type := RenderPrimitiveType.Quad
    flags := { screenTexture := true, textureFormat := TextureFormat.RGB32 }
    texture := { base := fun _ => 0, rowpixels := 1001, width := 1001,
                 height := 1000, palette := fun _ => 0 } }

/-- A concrete prior global state with a non-trivially filled frame
buffer. -/
def c3State : GlobalState :=
  { runningGameNumber := 3, runningGameStop := false, resetFlag := false,
    runningGameWidth := 64, runningGameHeight := 48,
    runningGameSampleRate := 44100, rom_path := ['.'],
    videoFrame := fun _ => 7 }

/-- A 1-by-1 RGB32 screen quad whose single source pixel is
`0xFFFFFFFF` and whose palette table maps every index to 0. -/
def c4Prim : RenderPrimitive :=
  { type := RenderPrimitiveType.Quad
    flags := { screenTexture := true, textureFormat := TextureFormat.RGB32 }
    texture := { base := fun _ => 4294967295, rowpixels := 1, width := 1,
                 height := 1, palette := fun _ => 0 } }

/-- A 1-by-1 RGB32 screen quad with an identity palette table and the
single source pixel `0xFFFFFFFF`. -/
def c4PrimId : RenderPrimitive :=
  { type := RenderPrimitiveType.Quad
    flags := { screenTexture := true, textureFormat := TextureFormat.RGB32 }
    texture := { base := fun _ => 4294967295, rowpixels := 1, width := 1,
                 height := 1, palette := fun v => v } }

/-- A concrete prior global state for the RGB32 conversion runs. -/
def c4State : GlobalState :=
  { runningGameNumber := 3, runningGameStop := false, resetFlag := false,
    runningGameWidth := 64, runningGameHeight := 48,
    runningGameSampleRate := 44100, rom_path := ['.'],
    videoFrame := fun _ => 7 }

/-- A vector (line) primitive, ineligible for video delivery. -/
def c5VecPrim : RenderPrimitive :=
  { type := RenderPrimitiveType.Line
    flags := { screenTexture := true, textureFormat := TextureFormat.Undefined }
    texture := { base := fun _ => 0, rowpixels := 0, width := 0, height := 0,
                 palette := fun _ => 0 } }

/-- A concrete prior global state for the selection-rule runs. -/
def c5State : GlobalState :=
  { runningGameNumber := 3, runningGameStop := false, resetFlag := false,
    runningGameWidth := 64, runningGameHeight := 48,
    runningGameSampleRate := 44100, rom_path := ['.'],
    videoFrame := fun _ => 7 }

/-- A 65536-by-65536 RGB32 screen quad: its true pixel count 2^32 is
far over the frame-buffer capacity, but the guard's uint32 product
wraps to 0. -/
def c3WrapPrim : RenderPrimitive :=
  { type := RenderPrimitiveType.Quad
    flags := { screenTexture := true, textureFormat := TextureFormat.RGB32 }
    texture := { base := fun _ => 0, rowpixels := 65536, width := 65536,
                 height := 65536, palette := fun _ => 0 } }

/-- A concrete prior global state for the wrapped-guard run. -/
def c3WrapState : GlobalState :=
  { runningGameNumber := 3, runningGameStop := false, resetFlag := false,
    runningGameWidth := 64, runningGameHeight := 48,
    runningGameSampleRate := 44100, rom_path := ['.'],
    videoFrame := fun _ => 7 }

/-- A concrete input path `abc/ng.zip` whose game name resolves to
nothing. -/
def c8Path : List Char := ['a', 'b', 'c', '/', 'n', 'g', '.', 'z', 'i', 'p']

/-- A concrete prior global state with an empty ROM path. -/
def c8State : GlobalState :=
  { runningGameNumber := -1, runningGameStop := true, resetFlag := false,
    runningGameWidth := 0, runningGameHeight := 0,
    runningGameSampleRate := 0, rom_path := [],
    videoFrame := fun _ => 0 }

/- ************************************************************************ -/
/- Helper lemmas                                                            -/
/- ************************************************************************ -/

/-- Each converted row has exactly `width` pixels. -/
theorem convertRow_length (src : Int → Nat) (f : Nat → Nat) (ptr : Int) (w : Nat) :
    (convertRow src f ptr w).length = w := by
  rw [convertRow, List.length_map, List.length_range]

/-- Pointwise reading of the conversion loop: destination position
`y * width + x` holds the conversion of source element
`ptr + y * rowpixels + x`. -/
theorem convertRows_get (src : Int → Nat) (f : Nat → Nat) (w : Nat) (rp : Int) :
    ∀ (h : Nat) (ptr : Int) (y x : Nat), y < h → x < w →
      (convertRows src f w rp h ptr).get? (y * w + x) =
        some (f (src (ptr + (y : Int) * rp + x))) := by
  intro h
  induction h with
  | zero => intro ptr y x hy hx; exact absurd hy (Nat.not_lt_zero y)
  | succ n ih =>
    intro ptr y x hy hx
    cases y with
    | zero =>
      simp only [convertRows, Nat.zero_mul, Nat.zero_add]
      rw [List.get?_append (by rw [convertRow_length]; exact hx)]
      rw [convertRow, List.get?_map, List.get?_range hx]
      norm_num
    | succ y' =>
      simp only [convertRows]
      rw [List.get?_append_right (by rw [convertRow_length]; nlinarith)]
      rw [convertRow_length]
      have harith : (y' + 1) * w + x - w = y' * w + x := by
        rw [Nat.succ_mul]; omega
      rw [harith, ih (ptr + rp) y' x (by omega) hx]
      congr 2
      push_cast
      ring

/-- The single-sample forwarding loop forwards, in order, the pair at
buffer offset `ptr + 2 * i` for `i = 0, …, n - 1`. -/
theorem audioSampleLoop_eq (buffer : Nat → Int) :
    ∀ (n ptr : Nat),
      audioSampleLoop buffer ptr n =
        (List.range n).map
          (fun i => AudioCall.sample (buffer (ptr + 2 * i)) (buffer (ptr + 2 * i + 1))) := by
  intro n
  induction n with
  | zero => intro ptr; simp [audioSampleLoop]
  | succ n ih =>
    intro ptr
    rw [audioSampleLoop, ih (ptr + 2), List.range_succ_eq_map]
    simp only [List.map_cons, List.map_map, Nat.mul_zero, Nat.add_zero]
    refine congrArg₂ _ rfl ?_
    refine List.map_congr_left ?_
    intro a _
    simp only [Function.comp_apply, Nat.succ_eq_add_one]
    have e1 : ptr + 2 + 2 * a = ptr + 2 * (a + 1) := by omega
    rw [e1]

/-- The scan loop of `UpdateVideoCb` returns the first eligible
primitive in list order. -/
theorem findScreenQuad_eq_find (l : List RenderPrimitive) :
    findScreenQuad l = l.find? isEligiblePrim := by
  induction l with
  | nil => rfl
  | cons p rest ih =>
    by_cases hq : p.type = RenderPrimitiveType.Quad <;>
      cases hs : p.flags.screenTexture <;>
        simp [findScreenQuad, List.find?, isEligiblePrim, hq, hs, ih]

/-- An invariant preserved by every scheduler step is preserved by every
schedule. -/
theorem run_preserve (P : Conf → Prop) (hP : ∀ c t, P c → P (stepOr c t)) :
    ∀ (ts : List Tid) (c : Conf), P c → P (run c ts) := by
  intro ts
  induction ts with
  | nil => intro c h; exact h
  | cons t ts ih => intro c h; exact ih _ (hP c t h)

/-- A configuration in which neither thread can step stays put under
every schedule. -/
theorem run_stuck (c : Conf) (hd : dstep c = none) (hw : wstep c = none) :
    ∀ ts : List Tid, run c ts = c := by
  intro ts
  induction ts with
  | nil => rfl
  | cons t ts ih =>
    have hstep : stepOr c t = c := by
      cases t <;> simp [stepOr, hd, hw]
    rw [run, hstep, ih]

/-- An unload-scenario configuration in which neither thread can step
stays put under every schedule. -/
theorem urun_stuck (c : UConf) (hd : ustep c = none) (hw : uwstep c = none) :
    ∀ ts : List Tid, urun c ts = c := by
  intro ts
  induction ts with
  | nil => rfl
  | cons t ts ih =>
    have hstep : ustepOr c t = c := by
      cases t <;> simp [ustepOr, hd, hw]
    rw [urun, hstep, ih]

/-- The conversion loops write exactly `height * width` destination
pixels. -/
theorem convertRows_length (src : Int → Nat) (f : Nat → Nat) (w : Nat) (rp : Int) :
    ∀ (h : Nat) (ptr : Int), (convertRows src f w rp h ptr).length = h * w := by
  intro h
  induction h with
  | zero => intro ptr; simp [convertRows]
  | succ n ih =>
    intro ptr
    rw [convertRows, List.length_append, convertRow_length, ih, Nat.succ_mul]
    omega

/- ************************************************************************ -/
/- Claim theorems                                                           -/
/- ************************************************************************ -/

/-- Claim C1: the spec guarantees the retro_run / MakeRunningGameCallsCb
signal-wait handshake never deadlocks under normal operation.  The code
violates this: neither `retro_run` nor `MakeRunningGameCallsCb` ever
executes `pthread_mutex_unlock`, so after the first completed handshake
the worker still holds `mutexG` when it reaches its second yield point
and blocks relocking it, while the driver sleeps on `fromRunnerCondG`
forever.  This theorem exhibits the deadlock: after `deadlockTrace`,
with a game loaded and no stop or reset pending, the driver is asleep in
`pthread_cond_wait`, the worker is blocked in `pthread_mutex_lock` on
the mutex it itself holds, neither thread can step, and every further
schedule leaves the configuration unchanged. -/
theorem c1_handshake_deadlock :
    dstep (run (initConf true) deadlockTrace) = none ∧
    wstep (run (initConf true) deadlockTrace) = none ∧
    (run (initConf true) deadlockTrace).dpc = DPc.dWaitSleep ∧
    (run (initConf true) deadlockTrace).wpc = WPc.wLock ∧
    (run (initConf true) deadlockTrace).mutex = some Tid.worker ∧
    (run (initConf true) deadlockTrace).wpc ≠ WPc.wStopped ∧
    ∀ ts : List Tid,
      run (run (initConf true) deadlockTrace) ts = run (initConf true) deadlockTrace := by
  refine ⟨by decide, by decide, by decide, by decide, by decide, by decide, ?_⟩
  exact run_stuck _ (by decide) (by decide)

/-- Claim C2: the spec says `retro_run` is a no-op (returns immediately)
when no game is loaded.  The code has no such check: it unconditionally
signals `toRunnerCondG` and then blocks in
`pthread_cond_wait(&fromRunnerCondG, &mutexG)`.  With no runner thread
(`runningGameNumberG == -1`) nothing ever signals `fromRunnerCondG`, so
under every schedule the driver never reaches the return point of
`retro_run` (`dDone`); in particular after its three enabled steps it is
permanently asleep. -/
theorem c2_retro_run_no_game_blocks :
    (∀ ts : List Tid, (run (initConf false) ts).dpc ≠ DPc.dDone) ∧
    (run (initConf false) [Tid.driver, Tid.driver, Tid.driver]).dpc = DPc.dWaitSleep ∧
    dstep (run (initConf false) [Tid.driver, Tid.driver, Tid.driver]) = none := by
  refine ⟨?_, by decide, by decide⟩
  intro ts
  have hinv :
      ∀ c t,
        (c.workerPresent = false ∧ c.dpc ≠ DPc.dWaitWake ∧ c.dpc ≠ DPc.dDone) →
        ((stepOr c t).workerPresent = false ∧ (stepOr c t).dpc ≠ DPc.dWaitWake ∧
          (stepOr c t).dpc ≠ DPc.dDone) := by
    intro c t h
    obtain ⟨hwp, hw1, hw2⟩ := h
    cases t with
    | worker => simp [stepOr, wstep, hwp, hw1, hw2]
    | driver =>
      cases hd : c.dpc with
      | dCall => by_cases hm : c.mutex = none <;> simp [stepOr, dstep, hd, hm, hwp, hw1, hw2]
      | dSignal =>
        have hcond : ¬(c.workerPresent = true ∧ c.wpc = WPc.wWaitSleep) := by simp [hwp]
        simp [stepOr, dstep, hd, hcond, hwp]
      | dWait0 => simp [stepOr, dstep, hd, hwp]
      | dWaitSleep => simp [stepOr, dstep, hd, hwp, hw1, hw2]
      | dWaitWake => exact absurd hd hw1
      | dDone => exact absurd hd hw2
  have h := run_preserve
    (fun c => c.workerPresent = false ∧ c.dpc ≠ DPc.dWaitWake ∧ c.dpc ≠ DPc.dDone)
    hinv ts (initConf false) (by decide)
  exact h.2.2

/-- Claim C2 witness: the never-returns property applied at a concrete
schedule. -/
theorem c2_retro_run_no_game_blocks_witness :
    (run (initConf false) [Tid.driver, Tid.driver, Tid.driver, Tid.driver]).dpc ≠
      DPc.dDone :=
  c2_retro_run_no_game_blocks.1 [Tid.driver, Tid.driver, Tid.driver, Tid.driver]

/-- Claim C3 counterexample: the claim quantifies over every first
eligible quad with width * height strictly greater than 1000*1000, but
the C guard computes the product in `uint32_t`, which wraps: a
65536-by-65536 screen texture (2^32 pixels, vastly oversized) wraps to
0 in the guard and passes it, after which `UpdateVideoCb` is not a
no-op — the cached width changes from 64 to 65536, the video callback
is invoked, and the conversion loops emit 65536 * 65536 destination
pixels, writing far past the 1000*1000-entry buffer capacity. -/
theorem c3_wrap_counterexample :
    65536 * 65536 > 1000 * 1000 ∧
    findScreenQuad [c3WrapPrim] = some c3WrapPrim ∧
    (UpdateVideoCb true [c3WrapPrim] c3WrapState).2 =
      some { width := 65536, height := 65536, pitch := 131072 } ∧
    (UpdateVideoCb true [c3WrapPrim] c3WrapState).1.runningGameWidth = 65536 ∧
    c3WrapState.runningGameWidth = 64 ∧
    (convertRows c3WrapPrim.texture.base
        (fun v => rgb32Pack (c3WrapPrim.texture.palette v))
        c3WrapPrim.texture.width c3WrapPrim.texture.rowpixels
        c3WrapPrim.texture.height 0).length = 65536 * 65536 := by
  refine ⟨by decide, by rfl, by decide, by decide, by decide, ?_⟩
  rw [convertRows_length]
  rfl

/-- Claim C3 (amended): if the first eligible quad's texture exceeds the
1000*1000-pixel frame-buffer capacity and its width * height stays below
2^32 (so the guard's uint32 product does not wrap), `UpdateVideoCb` is a
no-op: the globals (frame buffer, cached width and height included) are
returned unchanged and the video callback is not invoked. -/
theorem c3_oversized_noop (reg : Bool) (prims : List RenderPrimitive)
    (s : GlobalState) (prim : RenderPrimitive)
    (hfind : findScreenQuad prims = some prim)
    (hsize : prim.texture.width * prim.texture.height > 1000 * 1000)
    (hwrap : prim.texture.width * prim.texture.height < 4294967296) :
    UpdateVideoCb reg prims s = (s, none) := by
  cases reg with
  | false => rfl
  | true =>
    have hguard :
        prim.texture.width * prim.texture.height % 4294967296 > 1000 * 1000 := by
      rw [Nat.mod_eq_of_lt hwrap]; exact hsize
    simp [UpdateVideoCb, hfind, hguard]

/-- Claim C3 witness: a 1001-by-1000 screen quad (one row over capacity,
product well below 2^32) leaves a concrete state untouched and triggers
no delivery. -/
theorem c3_oversized_noop_witness :
    UpdateVideoCb true [c3PrimBig] c3State = (c3State, none) :=
  c3_oversized_noop true [c3PrimBig] c3State c3PrimBig (by rfl) (by decide)
    (by decide)

/-- Claim C4 counterexample: the claim says a source pixel `0xFFFFFFFF`
converts to the maximum 16-bit destination pixel.  On the code it does
not: the RGB32/ARGB32 branch first looks the packed source value up in
the texture's palette table (`prim->texture.palette[*src++]`) and then
keeps only the LOW 6 bits of each 8-bit channel (`& 0x3f` after shifts
16/8/0, not the top 6 bits).  With a palette mapping everything to 0, a
1-by-1 surface whose single pixel is `0xFFFFFFFF` is written to the
frame buffer as 0, not 65535; and on the pixel `0x00C00000` (red channel
`0xC0`, whose low 6 bits are 0) the code's repack gives 0 where the
claim's top-6-bits repack gives 49152. -/
theorem c4_rgb32_counterexample :
    (UpdateVideoCb true [c4Prim] c4State).1.videoFrame 0 = 0 ∧
    (UpdateVideoCb true [c4Prim] c4State).2 = some { width := 1, height := 1, pitch := 2 } ∧
    (0 : Nat) ≠ 65535 ∧
    rgb32Pack 12582912 = 0 ∧
    rgb32PackSpecTop6 12582912 = 49152 := by
  exact ⟨by decide, by decide, by decide, by decide, by decide⟩

/-- Claim C4 (amended): for every RGB32/ARGB32 surface accepted by the
size guard, destination pixel `(y, x)` is the source element at offset
`y * rowpixels + x`, looked up in the texture's palette table, with the
low-order 6 bits of each 8-bit channel of the looked-up value repacked
at destination bit offsets 10, 5 and 0 (alpha discarded); a looked-up
value `0xFFFFFFFF` repacks to the maximum 16-bit value 65535 and 0
repacks to 0. -/
theorem c4_rgb32_conversion :
    (∀ (prims : List RenderPrimitive) (s : GlobalState) (prim : RenderPrimitive),
        findScreenQuad prims = some prim →
        (prim.flags.textureFormat = TextureFormat.RGB32 ∨
          prim.flags.textureFormat = TextureFormat.ARGB32) →
        prim.texture.width * prim.texture.height ≤ 1000 * 1000 →
        ∀ y x : Nat, y < prim.texture.height → x < prim.texture.width →
          (UpdateVideoCb true prims s).1.videoFrame (y * prim.texture.width + x) =
            rgb32Pack (prim.texture.palette
              (prim.texture.base ((y : Int) * prim.texture.rowpixels + (x : Int))))) ∧
    rgb32Pack 4294967295 = 65535 ∧ rgb32Pack 0 = 0 := by
  refine ⟨?_, by decide, by decide⟩
  intro prims s prim hfind hfmt hsize y x hy hx
  have hgt :
      ¬(prim.texture.width * prim.texture.height % 4294967296 > 1000 * 1000) := by
    have hle := Nat.mod_le (prim.texture.width * prim.texture.height) 4294967296
    omega
  have hkey := convertRows_get prim.texture.base
    (fun v => rgb32Pack (prim.texture.palette v)) prim.texture.width
    prim.texture.rowpixels prim.texture.height 0 y x hy hx
  have hkey2 :
      (convertRows prim.texture.base (fun v => rgb32Pack (prim.texture.palette v))
          prim.texture.width prim.texture.rowpixels prim.texture.height 0)[
        y * prim.texture.width + x]? =
      some (rgb32Pack (prim.texture.palette
        (prim.texture.base ((y : Int) * prim.texture.rowpixels + (x : Int))))) := by
    rw [← List.get?_eq_getElem?]
    simpa using hkey
  rcases hfmt with h | h <;>
    simp [UpdateVideoCb, hfind, hgt, h, writeListToFrame, hkey2]

/-- Claim C4 witness: the amended conversion rule applied to a concrete
1-by-1 RGB32 surface with an identity palette and source pixel
`0xFFFFFFFF`. -/
theorem c4_rgb32_conversion_witness :
    (UpdateVideoCb true [c4PrimId] c4State).1.videoFrame
        (0 * c4PrimId.texture.width + 0) =
      rgb32Pack (c4PrimId.texture.palette
        (c4PrimId.texture.base
          (((0 : Nat) : Int) * c4PrimId.texture.rowpixels + ((0 : Nat) : Int)))) :=
  c4_rgb32_conversion.1 [c4PrimId] c4State c4PrimId (by rfl) (Or.inl rfl)
    (by decide) 0 0 (by decide) (by decide)

/-- Claim C5: `UpdateVideoCb` selects exactly the first primitive in
list order that is a quad bearing the screen-texture flag (the scan loop
equals `List.find?` of that eligibility predicate, so vector and
non-screen primitives are skipped), and when no primitive qualifies the
globals — frame buffer included — are returned unchanged and no video
delivery occurs. -/
theorem c5_selection_rule (prims : List RenderPrimitive) (s : GlobalState) :
    findScreenQuad prims = prims.find? isEligiblePrim ∧
    (prims.find? isEligiblePrim = none → UpdateVideoCb true prims s = (s, none)) := by
  refine ⟨findScreenQuad_eq_find prims, ?_⟩
  intro hnone
  have h2 : findScreenQuad prims = none := (findScreenQuad_eq_find prims).trans hnone
  simp [UpdateVideoCb, h2]

/-- Claim C5 witness: a list holding only a vector primitive has no
eligible quad, and `UpdateVideoCb` leaves a concrete state unchanged
with no delivery. -/
theorem c5_selection_rule_witness :
    findScreenQuad [c5VecPrim] = [c5VecPrim].find? isEligiblePrim ∧
    UpdateVideoCb true [c5VecPrim] c5State = (c5State, none) :=
  ⟨(c5_selection_rule [c5VecPrim] c5State).1,
   (c5_selection_rule [c5VecPrim] c5State).2 (by rfl)⟩

/-- Claim C6: `UpdateAudioCb` records the sample rate and then: with a
batch callback registered, forwards the whole batch in one call; with
only the single-sample callback registered, makes exactly
`frame_count` calls forwarding the left/right values of each stereo pair
(buffer offsets `2i` and `2i + 1`) in order; with neither registered,
forwards nothing. -/
theorem c6_audio_forwarding (b sc : Bool) (rate : Int) (n : Nat)
    (buf : Nat → Int) (s : GlobalState) :
    UpdateAudioCb b sc rate n buf s =
      ({ s with runningGameSampleRate := rate },
        if b then [AudioCall.batch n]
        else if sc then
          (List.range n).map (fun i => AudioCall.sample (buf (2 * i)) (buf (2 * i + 1)))
        else []) := by
  cases b <;> cases sc <;> simp [UpdateAudioCb, audioSampleLoop_eq]

/-- Claim C7: the claim (and spec) say `retro_unload_game` blocks until
the worker-alive indicator goes false and then zeroes the cached width,
height and sample rate.  The code cannot complete this: the same
missing `pthread_mutex_unlock` slip established for C1 means the worker
thread terminates still owning `mutexG`, so the driver, although
signalled out of its wait loop, can never reacquire the mutex inside
`pthread_cond_wait`, and the zeroing is unreachable.  This theorem
exhibits the scenario: from a loaded game, the driver performs every
step the claim describes — sets the stop intent, wakes the worker,
blocks — and the worker duly observes the stop, exits with
`runningGameNumberG = -1` and signals back, then dies holding the
mutex; the final configuration has the driver permanently blocked at
the mutex reacquisition (`uWaitWake`), one step short of re-testing the
guard and reaching the zeroing, and no schedule ever moves it again. -/
theorem c7_unload_never_completes :
    ustep (urun uInitConf unloadDeadTrace) = none ∧
    uwstep (urun uInitConf unloadDeadTrace) = none ∧
    (urun uInitConf unloadDeadTrace).upc = UPc.uWaitWake ∧
    (urun uInitConf unloadDeadTrace).xpc = WXPc.xDead ∧
    (urun uInitConf unloadDeadTrace).mutex = some Tid.worker ∧
    (urun uInitConf unloadDeadTrace).stop = true ∧
    (urun uInitConf unloadDeadTrace).numMinus1 = true ∧
    ∀ ts : List Tid,
      urun (urun uInitConf unloadDeadTrace) ts = urun uInitConf unloadDeadTrace := by
  refine ⟨by decide, by decide, by decide, by decide, by decide, by decide, by decide, ?_⟩
  exact urun_stuck _ (by decide) (by decide)

/-- Claim C8 counterexample: the claim says a failed load leaves all
session state exactly as before the call, but `retro_load_game` writes
the parsed path into `runGameOptionsG.rom_path` before the lookup is
checked: loading `abc/ng.zip` with an unresolvable game name returns
false yet changes `rom_path` from empty to `abc/`. -/
theorem c8_load_counterexample :
    (retro_load_game (fun _ => -1) true c8Path c8State).2.1 = false ∧
    (retro_load_game (fun _ => -1) true c8Path c8State).1.rom_path =
      ['a', 'b', 'c', '/'] ∧
    c8State.rom_path = [] ∧
    (retro_load_game (fun _ => -1) true c8Path c8State).1.rom_path ≠
      c8State.rom_path := by
  exact ⟨by decide, by decide, rfl, by decide⟩

/-- Claim C8 (amended): when the game name parsed from the input path
does not resolve, `retro_load_game` returns false, creates no worker
thread, and leaves the stop flag, cached video/audio metadata and frame
buffer unchanged; however it has already overwritten the ROM-path run
option with the prefix parsed from the input, and it sets the
running-game number to the failed lookup's -1. -/
theorem c8_load_unresolvable (lookup : List Char → Int) (createOk : Bool)
    (path : List Char) (s : GlobalState)
    (h : lookup (parseGameName path) = -1) :
    retro_load_game lookup createOk path s =
      ({ s with rom_path := parseRomPath path, runningGameNumber := -1 },
        false, false) := by
  simp [retro_load_game, h]

/-- Claim C8 witness: the amended load-failure behavior at the concrete
path `abc/ng.zip` and an always-failing lookup. -/
theorem c8_load_unresolvable_witness :
    retro_load_game (fun _ => -1) true c8Path c8State =
      ({ c8State with rom_path := parseRomPath c8Path, runningGameNumber := -1 },
        false, false) :=
  c8_load_unresolvable (fun _ => -1) true c8Path c8State (by rfl)

/-- Claim C9: every unsupported entry point fails or returns empty/zero
for every input, with no effect on the globals:
`retro_serialize_size` and `retro_get_memory_size` return 0,
`retro_serialize`, `retro_unserialize` and `retro_load_game_special`
return false, `retro_get_region` returns 0, `retro_get_memory_data`
returns NULL, and the cheat entry points change nothing. -/
theorem c9_unsupported_stubs :
    ∀ (s : GlobalState) (data : List Nat) (size id idx gt ni : Nat)
      (en : Bool) (code : List Char),
      retro_serialize_size = 0 ∧
      retro_get_memory_size id = 0 ∧
      retro_serialize data size s = (s, false) ∧
      retro_unserialize data size s = (s, false) ∧
      retro_load_game_special gt ni s = (s, false) ∧
      retro_get_region = 0 ∧
      retro_get_memory_data id = none ∧
      retro_cheat_reset s = s ∧
      retro_cheat_set idx en code s = s := by
  intro s data size id idx gt ni en code
  exact ⟨rfl, rfl, rfl, rfl, rfl, rfl, rfl, rfl, rfl⟩

/-- Claim C10: in the yield-point command check, the stop intent takes
strict precedence over the reset intent: with both flags set only engine
exit is scheduled and the flags (the reset flag included) are left
untouched; and the reset flag is cleared exactly when a soft reset is
actually scheduled. -/
theorem c10_stop_precedence :
    ∀ stop reset : Bool,
      (stop = true ∧ reset = true →
        makeRunningGameCallsCheck stop reset =
          ((true, true), some EngineCall.scheduleExit)) ∧
      ((makeRunningGameCallsCheck stop reset).1.2 ≠ reset →
        (makeRunningGameCallsCheck stop reset).2 = some EngineCall.scheduleSoftReset) ∧
      (reset = true ∧
          (makeRunningGameCallsCheck stop reset).2 = some EngineCall.scheduleSoftReset →
        (makeRunningGameCallsCheck stop reset).1.2 = false) := by
  decide

/-- Claim C10 witness: with both the stop and reset flags set, only
engine exit is scheduled and the reset flag survives uncleared. -/
theorem c10_stop_precedence_witness :
    makeRunningGameCallsCheck true true = ((true, true), some EngineCall.scheduleExit) :=
  (c10_stop_precedence true true).1 ⟨rfl, rfl⟩
